import Mathlib

/-!
Verification of the RICHIEAT repository against its natural-language
specification.

Part I embeds the frontend authentication context
(src/frontend/src/context/AuthContext.jsx): the persisted browser storage
(localStorage keys `token` and `user`), the in-memory auth state
(`user`, `loading`, `isAuthenticated`), and the four operations
`checkAuthStatus`, `login`, `register`, `logout`.

Part II embeds the backend bootstrap (src/backend/index.js): the ordered
middleware pipeline, the health route, router dispatch, the terminal error
handler and the 404 handler.

The frontend API service (services/api.js) and the logging middleware
(middleware/requestLogger.js) are repository code that is not among the
reviewed sources; where a claim depends on them they are modelled from the
spec, each such definition carrying a doc comment that says so.
-/

/-! ## Part I: frontend auth context -/

/-- The two persisted browser-storage keys used by the auth context:
`localStorage` keys `token` (bearer token) and `user` (serialized advisor
profile). `none` models an absent key. -/
structure Storage where
  token : Option String
  user : Option String
deriving DecidableEq, Repr

/-- The in-memory React state of `AuthProvider`: `user`, `loading`,
`isAuthenticated` (AuthContext.jsx lines 16-18). The advisor profile is
abstracted as a `String`. -/
structure AuthState where
  user : Option String
  loading : Bool
  isAuthenticated : Bool
deriving DecidableEq, Repr

/-- Initial state on app start: `useState(null)`, `useState(true)`,
`useState(false)` (AuthContext.jsx lines 16-18). -/
def initialAuthState : AuthState :=
  { user := none, loading := true, isAuthenticated := false }

/-- JavaScript truthiness of a possibly-absent string: `null` and the empty
string are falsy, every other string is truthy. Used for the
`if (token && storedUser)` test. -/
def truthy : Option String → Bool
  | none => false
  | some s => !(s == "")

/-- JavaScript `a || b` on a possibly-absent string: the fallback is taken
when the value is absent or the empty string. -/
def jsOr (o : Option String) (d : String) : String :=
  match o with
  | none => d
  | some s => if s == "" then d else s

/-- A `react-hot-toast` notification surfaced to the user. -/
inductive Toast where
  | success (msg : String)
  | error (msg : String)
deriving DecidableEq, Repr

/-- Modelled from the spec: the outcome of the frontend API service call
`authAPI.getProfile()` (services/api.js is not among the reviewed sources).
Per the spec's HTTP surface, `GET /api/auth/profile` resolves
`{success, advisor}` or a 401-class failure; the call may also throw. The
spec gives the service layer no browser-storage side effects. -/
inductive ProfileOutcome where
  | ok (advisor : String)
  | failure
  | throws
deriving DecidableEq, Repr

/-- Result of one run of `checkAuthStatus`: the final in-memory state, the
final persisted storage, and whether the server profile fetch was
performed. -/
structure CheckResult where
  state : AuthState
  storage : Storage
  fetched : Bool
deriving DecidableEq, Repr

/-- `checkAuthStatus` (AuthContext.jsx lines 25-49). Reads the two
persisted keys; only when both are truthy does it fetch the profile. On a
successful fetch it sets the user and the authenticated flag; on a
resolved failure or a thrown error it removes both persisted keys. The
`finally` block always resolves `loading` to `false`. -/
def checkAuthStatus (st : AuthState) (storage : Storage)
    (server : ProfileOutcome) : CheckResult :=
  if truthy storage.token && truthy storage.user then
    match server with
    | .ok adv =>
      { state := { st with user := some adv, isAuthenticated := true, loading := false }
        storage := storage
        fetched := true }
    | .failure =>
      { state := { st with loading := false }
        storage := { token := none, user := none }
        fetched := true }
    | .throws =>
      { state := { st with loading := false }
        storage := { token := none, user := none }
        fetched := true }
  else
    { state := { st with loading := false }, storage := storage, fetched := false }

/-- Modelled from the spec: the outcome of `authAPI.login` /
`authAPI.register` (services/api.js is not among the reviewed sources).
Per the spec, the call resolves `{success, token, advisor}` on success, a
`{success: false, message}` shape on rejection, or throws. -/
inductive AuthCallOutcome where
  | ok (token advisor : String)
  | failure (message : Option String)
  | throws (message : Option String)
deriving DecidableEq, Repr

/-- The value with which `login`/`register` resolves its promise:
`{success, message?, user?}`. -/
structure OpResult where
  success : Bool
  message : Option String
  retUser : Option String
deriving DecidableEq, Repr

/-- Result of one run of `login`/`register`: final state, final storage,
the resolved value, and the notifications surfaced. -/
structure OpRun where
  state : AuthState
  storage : Storage
  result : OpResult
  toasts : List Toast
deriving DecidableEq, Repr

/-- `login` (AuthContext.jsx lines 51-78). On `response.success` it
persists the token and the serialized advisor (serialization abstracted),
sets the state and resolves `{success: true, user}`; on a resolved failure
or a thrown error it surfaces an error toast and resolves
`{success: false, message}` without touching storage. All paths return
normally (the `catch` swallows the throw) and `finally` resolves
`loading`. -/
def login (st : AuthState) (storage : Storage) (server : AuthCallOutcome) : OpRun :=
  match server with
  | .ok tok adv =>
    { state := { user := some adv, loading := false, isAuthenticated := true }
      storage := { token := some tok, user := some adv }
      result := { success := true, message := none, retUser := some adv }
      toasts := [.success "Login successful!"] }
  | .failure msg =>
    { state := { st with loading := false }
      storage := storage
      result := { success := false, message := msg, retUser := none }
      toasts := [.error (jsOr msg "Login failed")] }
  | .throws emsg =>
    { state := { st with loading := false }
      storage := storage
      result := { success := false
                  message := some (jsOr emsg "Login failed. Please try again.")
                  retUser := none }
      toasts := [.error (jsOr emsg "Login failed. Please try again.")] }

/-- `register` (AuthContext.jsx lines 80-107); identical control flow to
`login` with registration-specific messages. -/
def register (st : AuthState) (storage : Storage) (server : AuthCallOutcome) : OpRun :=
  match server with
  | .ok tok adv =>
    { state := { user := some adv, loading := false, isAuthenticated := true }
      storage := { token := some tok, user := some adv }
      result := { success := true, message := none, retUser := some adv }
      toasts := [.success "Registration successful!"] }
  | .failure msg =>
    { state := { st with loading := false }
      storage := storage
      result := { success := false, message := msg, retUser := none }
      toasts := [.error (jsOr msg "Registration failed")] }
  | .throws emsg =>
    { state := { st with loading := false }
      storage := storage
      result := { success := false
                  message := some (jsOr emsg "Registration failed. Please try again.")
                  retUser := none }
      toasts := [.error (jsOr emsg "Registration failed. Please try again.")] }

/-- Modelled from the spec: the outcome of `authAPI.logout()`
(services/api.js is not among the reviewed sources). Per the spec's HTTP
surface, `POST /api/auth/logout` resolves `{success}` or the call throws;
the spec gives the service layer no browser-storage side effects. -/
inductive LogoutOutcome where
  | ok
  | throws
deriving DecidableEq, Repr

/-- Result of one run of `logout`. -/
structure LogoutRun where
  state : AuthState
  storage : Storage
  success : Bool
  toasts : List Toast
deriving DecidableEq, Repr

/-- `logout` (AuthContext.jsx lines 109-129). Both the `try` branch and the
`catch` branch clear the in-memory state (`setUser(null)`,
`setIsAuthenticated(false)`) and resolve `{success: true}`; neither branch
touches the persisted `localStorage` keys. `finally` resolves `loading`. -/
def logout (st : AuthState) (storage : Storage) (server : LogoutOutcome) : LogoutRun :=
  match st, server with
  | _, .ok =>
    { state := { user := none, loading := false, isAuthenticated := false }
      storage := storage
      success := true
      toasts := [.success "Logged out successfully!"] }
  | _, .throws =>
    { state := { user := none, loading := false, isAuthenticated := false }
      storage := storage
      success := true
      toasts := [] }

/-! ## Theorems about the frontend claims -/

/-- Claim C1 (code bug evidence): invoking `logout` with both persisted
keys present leaves both keys in browser storage untouched, in the
server-success case and in the server-throw case alike — contradicting the
spec, which says logout always clears both persisted keys. -/
theorem logout_C1_storage_not_cleared :
    (logout { user := some "alice", loading := false, isAuthenticated := true }
        { token := some "tok", user := some "alice" } LogoutOutcome.ok).storage
      = { token := some "tok", user := some "alice" }
    ∧ (logout { user := some "alice", loading := false, isAuthenticated := true }
        { token := some "tok", user := some "alice" } LogoutOutcome.throws).storage
      = { token := some "tok", user := some "alice" } :=
  ⟨rfl, rfl⟩

/-- Claim C9: `logout` resolves `{success: true}` for every starting state,
every storage content and both server outcomes; there is no input on which
it resolves `success = false` (and the model is total, mirroring the
`catch` that swallows the server throw). -/
theorem logout_C9_always_succeeds (st : AuthState) (storage : Storage)
    (server : LogoutOutcome) :
    (logout st storage server).success = true := by
  cases server <;> rfl

/-- Claim C6: for every failed `login` or `register` call — the server
resolving `success: false` or the call throwing — the operation resolves
`{success: false, message}` (it never rethrows: the model is total),
surfaces an error notification, and leaves browser storage untouched. -/
theorem auth_C6_failure_paths (st : AuthState) (storage : Storage)
    (msg emsg : Option String) :
    ((login st storage (.failure msg)).result.success = false
      ∧ (login st storage (.failure msg)).result.message = msg
      ∧ (login st storage (.failure msg)).storage = storage
      ∧ (login st storage (.failure msg)).toasts
          = [Toast.error (jsOr msg "Login failed")])
    ∧ ((login st storage (.throws emsg)).result.success = false
      ∧ (login st storage (.throws emsg)).result.message
          = some (jsOr emsg "Login failed. Please try again.")
      ∧ (login st storage (.throws emsg)).storage = storage
      ∧ (login st storage (.throws emsg)).toasts
          = [Toast.error (jsOr emsg "Login failed. Please try again.")])
    ∧ ((register st storage (.failure msg)).result.success = false
      ∧ (register st storage (.failure msg)).result.message = msg
      ∧ (register st storage (.failure msg)).storage = storage
      ∧ (register st storage (.failure msg)).toasts
          = [Toast.error (jsOr msg "Registration failed")])
    ∧ ((register st storage (.throws emsg)).result.success = false
      ∧ (register st storage (.throws emsg)).result.message
          = some (jsOr emsg "Registration failed. Please try again.")
      ∧ (register st storage (.throws emsg)).storage = storage
      ∧ (register st storage (.throws emsg)).toasts
          = [Toast.error (jsOr emsg "Registration failed. Please try again.")]) :=
  ⟨⟨rfl, rfl, rfl, rfl⟩, ⟨rfl, rfl, rfl, rfl⟩, ⟨rfl, rfl, rfl, rfl⟩,
    ⟨rfl, rfl, rfl, rfl⟩⟩

/-- Claim C2: on the initial auth check, (a) with a persisted token and
user and a successful profile fetch the state becomes authenticated with
the fetched advisor as user; (b) with no persisted token the state stays
unauthenticated for every server behaviour; (c) when the fetch is
performed and fails — a resolved failure or a throw — the state stays
unauthenticated and both persisted keys are removed. -/
theorem checkAuthStatus_C2 (t u adv : String) (storage : Storage) :
    (t ≠ "" → u ≠ "" →
      (checkAuthStatus initialAuthState ⟨some t, some u⟩ (.ok adv)).state.isAuthenticated
          = true
      ∧ (checkAuthStatus initialAuthState ⟨some t, some u⟩ (.ok adv)).state.user
          = some adv)
    ∧ (storage.token = none → ∀ server : ProfileOutcome,
      (checkAuthStatus initialAuthState storage server).state.isAuthenticated = false)
    ∧ (t ≠ "" → u ≠ "" → ∀ server : ProfileOutcome,
      (server = .failure ∨ server = .throws) →
      (checkAuthStatus initialAuthState ⟨some t, some u⟩ server).state.isAuthenticated
          = false
      ∧ (checkAuthStatus initialAuthState ⟨some t, some u⟩ server).storage.token = none
      ∧ (checkAuthStatus initialAuthState ⟨some t, some u⟩ server).storage.user = none) := by
  refine ⟨?_, ?_, ?_⟩
  · intro ht hu
    simp [checkAuthStatus, truthy, initialAuthState, ht, hu]
  · intro hnone server
    obtain ⟨tok, usr⟩ := storage
    simp only at hnone
    subst hnone
    simp [checkAuthStatus, truthy, initialAuthState]
  · intro ht hu server hsrv
    rcases hsrv with h | h <;> subst h <;>
      simp [checkAuthStatus, truthy, initialAuthState, ht, hu]

/-- Concrete witness for claim C2: token `"tok"`, user `"alice"`, a
successful fetch of advisor `"alice"`, a token-less storage, and a failing
fetch. -/
theorem checkAuthStatus_C2_witness :
    ((checkAuthStatus initialAuthState ⟨some "tok", some "alice"⟩ (.ok "alice")).state.isAuthenticated
        = true)
    ∧ ((checkAuthStatus initialAuthState ⟨none, some "alice"⟩ .failure).state.isAuthenticated
        = false)
    ∧ ((checkAuthStatus initialAuthState ⟨some "tok", some "alice"⟩ .failure).storage.token
        = none) := by
  have h := checkAuthStatus_C2 "tok" "alice" "alice" ⟨none, some "alice"⟩
  exact ⟨(h.1 (by decide) (by decide)).1,
    h.2.1 rfl .failure,
    (h.2.2 (by decide) (by decide) .failure (Or.inl rfl)).2.1⟩

/-- Claim C10: the initial auth check contacts the server only when both
persisted keys are present; when exactly one of the two keys is present it
performs no fetch, removes neither key, and leaves the state
unauthenticated with `loading` resolved to `false`. -/
theorem checkAuthStatus_C10 (storage : Storage) (server : ProfileOutcome) :
    ((checkAuthStatus initialAuthState storage server).fetched = true →
      storage.token.isSome = true ∧ storage.user.isSome = true)
    ∧ (storage.token.isSome ≠ storage.user.isSome →
      (checkAuthStatus initialAuthState storage server).fetched = false
      ∧ (checkAuthStatus initialAuthState storage server).storage = storage
      ∧ (checkAuthStatus initialAuthState storage server).state.isAuthenticated = false
      ∧ (checkAuthStatus initialAuthState storage server).state.loading = false) := by
  obtain ⟨tok, usr⟩ := storage
  constructor
  · intro hf
    cases tok <;> cases usr <;>
      simp_all [checkAuthStatus, truthy, initialAuthState]
  · intro hxor
    cases tok <;> cases usr <;>
      simp_all [checkAuthStatus, truthy, initialAuthState]

/-- Concrete witness for claim C10: a storage holding only the `token` key
(no `user` key), with a server that would have answered successfully. -/
theorem checkAuthStatus_C10_witness :
    (checkAuthStatus initialAuthState ⟨some "tok", none⟩ (.ok "alice")).fetched = false
    ∧ (checkAuthStatus initialAuthState ⟨some "tok", none⟩ (.ok "alice")).storage
        = ⟨some "tok", none⟩
    ∧ (checkAuthStatus initialAuthState ⟨some "tok", none⟩ (.ok "alice")).state.isAuthenticated
        = false := by
  have h := (checkAuthStatus_C10 ⟨some "tok", none⟩ (.ok "alice")).2 (by decide)
  exact ⟨h.1, h.2.1, h.2.2.1⟩

/-! ## Part II: backend bootstrap (src/backend/index.js) -/

/-- A JSON value appearing in a response body (only the shapes the embedded
responses need). -/
inductive Jval where
  | str (s : String)
  | jbool (b : Bool)
  | num (n : Nat)
deriving DecidableEq, Repr

/-- An HTTP response: status, JSON body as an ordered field list, and the
correlation-ID response header. -/
structure Response where
  status : Nat
  body : List (String × Jval)
  requestIdHeader : Option String
deriving DecidableEq, Repr

/-- Backend environment configuration: the raw `process.env.NODE_ENV`
value (`none` models an unset variable). -/
structure Env where
  nodeEnvVar : Option String
deriving DecidableEq, Repr

/-- `NODE_ENV` after the default is applied:
`process.env.NODE_ENV || 'development'` (index.js line 11); by JavaScript
truthiness an unset or empty variable yields `"development"`. -/
def nodeEnv (e : Env) : String :=
  match e.nodeEnvVar with
  | none => "development"
  | some s => if s == "" then "development" else s

/-- Ambient process state read by the health route: current time string,
process uptime, and whether `mongoose.connection.readyState === 1`. -/
structure SysState where
  now : String
  uptime : Nat
  dbConnected : Bool
deriving DecidableEq, Repr

/-- An incoming HTTP request as the embedded pipeline observes it: method,
path, the `Origin` header, the body size in bytes, and whether the body is
malformed JSON. -/
structure Request where
  method : String
  path : String
  origin : Option String
  bodySize : Nat
  bodyMalformed : Bool
deriving DecidableEq, Repr

/-- CORS allow-list (index.js lines 31-36): the production list when the
raw `process.env.NODE_ENV` equals `"production"`, the three localhost
origins otherwise. -/
def corsAllowlist (e : Env) : List String :=
  if e.nodeEnvVar = some "production" then
    ["https://yourdomain.com"]
  else
    ["http://localhost:3000", "http://localhost:5173", "http://localhost:5174"]

/-- Modelled from the spec for the `cors` package's enforcement: a request
whose `Origin` is absent passes; one whose `Origin` is not on the
allow-list is rejected with a 403-class failure. The allow-list itself is
the configuration in index.js lines 31-36. -/
def corsOk (e : Env) (req : Request) : Bool :=
  match req.origin with
  | none => true
  | some o => (corsAllowlist e).contains o

/-- The fixed body-size ceiling: `'10mb'` (index.js lines 38-46), i.e.
10 * 1024 * 1024 bytes. -/
def bodyLimit : Nat := 10485760

/-- Express mount matching for `app.use(mount, router)`: the path equals
the mount point or continues it after a `/`. -/
def mountMatch (mount p : String) : Bool :=
  p == mount || List.isPrefixOf (mount ++ "/").data p.data

/-- The health route predicate: `app.get('/')` (index.js line 89). -/
def isHealthReq (req : Request) : Bool :=
  req.method == "GET" && req.path == "/"

/-- The health-check body (index.js lines 90-98). It carries `message`,
`version`, `status`, `timestamp`, `environment`, `database` and `uptime` —
and no `success` field. -/
def healthBody (e : Env) (sys : SysState) : List (String × Jval) :=
  [("message", .str "RICHIEAT Backend API is running!"),
   ("version", .str "1.0.0"),
   ("status", .str "active"),
   ("timestamp", .str sys.now),
   ("environment", .str (nodeEnv e)),
   ("database", .str (if sys.dbConnected then "connected" else "disconnected")),
   ("uptime", .num sys.uptime)]

/-- The error detail exposed to the client by the terminal error handler
(index.js lines 117-119): the original message unless `NODE_ENV` is
`production`, in which case the fixed string `"Internal server error"`. -/
def errorExposed (e : Env) (emsg : String) : String :=
  if nodeEnv e == "production" then "Internal server error" else emsg

/-- The terminal error handler's JSON body (index.js lines 121-126). -/
def errorBody (e : Env) (rid emsg : String) : List (String × Jval) :=
  [("success", .jbool false),
   ("message", .str "Something went wrong!"),
   ("error", .str (errorExposed e emsg)),
   ("requestId", .str rid)]

/-- The terminal error handler's status: `err.status || 500`
(index.js line 121). -/
def errorStatus (est : Option Nat) : Nat := est.getD 500

/-- The 404 handler's JSON body (index.js lines 135-139). -/
def notFoundBody (rid : String) : List (String × Jval) :=
  [("success", .jbool false),
   ("message", .str "Route not found"),
   ("requestId", .str rid)]

/-- Modelled from the spec: body of the body-parser's 413-class rejection
of an oversized body (the rejection itself is framework behaviour; the
spec fixes only its class). -/
def tooLargeBody (rid : String) : List (String × Jval) :=
  [("success", .jbool false),
   ("message", .str "Payload too large"),
   ("requestId", .str rid)]

/-- Modelled from the spec: body of the body-parser's 400-class rejection
of malformed JSON. -/
def badJsonBody (rid : String) : List (String × Jval) :=
  [("success", .jbool false),
   ("message", .str "Malformed JSON"),
   ("requestId", .str rid)]

/-- Modelled from the spec: body of the CORS 403-class rejection. -/
def corsRejectBody (rid : String) : List (String × Jval) :=
  [("success", .jbool false),
   ("message", .str "Not allowed by CORS"),
   ("requestId", .str rid)]

/-- A pipeline or terminal stage, one per registration in index.js
(lines 25-28 for the four logging registrations, 31-46 for CORS and body
parsing — `express.json` and `express.urlencoded` share one stage since
both carry the same limit — then the route handlers, the terminal error
handler and the 404 handler). -/
inductive Stage where
  | addRequestId
  | morganMiddleware
  | requestLogger
  | securityLogger
  | corsStage
  | bodyParse
  | routeHandler
  | errorStage
  | notFoundStage
deriving DecidableEq, Repr

/-- The spec's rank of a stage in the pipeline: request-ID assignment,
access logging (both registrations), security logging, CORS, body parsing,
route handlers, then the terminal handlers. -/
def stageRank : Stage → Nat
  | .addRequestId => 0
  | .morganMiddleware => 1
  | .requestLogger => 1
  | .securityLogger => 2
  | .corsStage => 3
  | .bodyParse => 4
  | .routeHandler => 5
  | .errorStage => 6
  | .notFoundStage => 6

/-- Which piece of the app produced the response. -/
inductive Handler where
  | health
  | router
  | errorHandler
  | notFound
  | corsReject
  | bodyTooLarge
  | badJson
deriving DecidableEq, Repr

/-- The behaviour of a mounted router (routes/auth.js and
routes/clients.js are not among the reviewed sources, so each router is an
opaque parameter): it responds, throws an error carrying a message and an
optional status, or falls through to the next handler. -/
inductive RouterOutcome where
  | respond (status : Nat) (body : List (String × Jval))
  | throwErr (message : String) (status : Option Nat)
  | next
deriving DecidableEq, Repr

/-- Result of running the app on one request: the response, the executed
stages in order, and which handler produced the response. -/
structure RunResult where
  resp : Response
  trace : List Stage
  handledBy : Handler
deriving DecidableEq, Repr

/-- The four logging registrations that run on every request, in
registration order (index.js lines 25-28). `addRequestId` is modelled from
the spec: it attaches the correlation ID to the request and echoes it in
every response's header; the three loggers never block (spec stage (3):
"without blocking"). -/
def preTrace : List Stage :=
  [.addRequestId, .morganMiddleware, .requestLogger, .securityLogger]

/-- Dispatch to a mounted router (index.js lines 105-106): a thrown error
propagates to the terminal error handler (lines 109-127); a fall-through
reaches the 404 handler (lines 130-140). -/
def dispatchRouter (e : Env) (rid : String) (r : RouterOutcome) : RunResult :=
  match r with
  | .respond st b =>
    { resp := { status := st, body := b, requestIdHeader := some rid }
      trace := preTrace ++ [.corsStage, .bodyParse, .routeHandler]
      handledBy := .router }
  | .throwErr emsg est =>
    { resp := { status := errorStatus est, body := errorBody e rid emsg
                requestIdHeader := some rid }
      trace := preTrace ++ [.corsStage, .bodyParse, .routeHandler, .errorStage]
      handledBy := .errorHandler }
  | .next =>
    { resp := { status := 404, body := notFoundBody rid, requestIdHeader := some rid }
      trace := preTrace ++ [.corsStage, .bodyParse, .notFoundStage]
      handledBy := .notFound }

/-- One request through the app of index.js: the four logging middlewares,
then CORS, then body parsing, then — in registration order — the health
route, the `/api/auth` router, the `/api/clients` router, and otherwise
the 404 handler. `rid` is the correlation ID the request-ID middleware
generated for this request. -/
def runApp (e : Env) (sys : SysState) (req : Request) (rid : String)
    (authR clientsR : RouterOutcome) : RunResult :=
  if !(corsOk e req) then
    { resp := { status := 403, body := corsRejectBody rid, requestIdHeader := some rid }
      trace := preTrace ++ [.corsStage]
      handledBy := .corsReject }
  else if bodyLimit < req.bodySize then
    { resp := { status := 413, body := tooLargeBody rid, requestIdHeader := some rid }
      trace := preTrace ++ [.corsStage, .bodyParse]
      handledBy := .bodyTooLarge }
  else if req.bodyMalformed then
    { resp := { status := 400, body := badJsonBody rid, requestIdHeader := some rid }
      trace := preTrace ++ [.corsStage, .bodyParse]
      handledBy := .badJson }
  else if isHealthReq req then
    { resp := { status := 200, body := healthBody e sys, requestIdHeader := some rid }
      trace := preTrace ++ [.corsStage, .bodyParse, .routeHandler]
      handledBy := .health }
  else if mountMatch "/api/auth" req.path then
    dispatchRouter e rid authR
  else if mountMatch "/api/clients" req.path then
    dispatchRouter e rid clientsR
  else
    { resp := { status := 404, body := notFoundBody rid, requestIdHeader := some rid }
      trace := preTrace ++ [.corsStage, .bodyParse, .notFoundStage]
      handledBy := .notFound }

/-! ## Theorems about the backend claims -/

/-- Claim C3 counterexample: the `GET /` health-probe response body
carries no `success` field at all, refuting the claim that every backend
response contains a `success` boolean field together with the correlation
ID. -/
theorem health_C3_counterexample :
    ¬ ("success" ∈ ((runApp { nodeEnvVar := some "development" }
        { now := "2026-10-12T00:00:00.000Z", uptime := 42, dbConnected := true }
        { method := "GET", path := "/", origin := none, bodySize := 0
          bodyMalformed := false }
        "req-1" .next .next).resp.body.map Prod.fst)) := by
  decide

/-- Claim C3 (amended): every backend response echoes the request's
correlation ID in its response header; the 404 handler's and the terminal
error handler's JSON bodies contain a `success` boolean field; the
`GET /` health-probe body contains no `success` field. -/
theorem responses_C3_amended (e : Env) (sys : SysState) (req : Request)
    (rid : String) (authR clientsR : RouterOutcome) :
    (runApp e sys req rid authR clientsR).resp.requestIdHeader = some rid
    ∧ ((runApp e sys req rid authR clientsR).handledBy = Handler.notFound →
        "success" ∈ (runApp e sys req rid authR clientsR).resp.body.map Prod.fst)
    ∧ ((runApp e sys req rid authR clientsR).handledBy = Handler.errorHandler →
        "success" ∈ (runApp e sys req rid authR clientsR).resp.body.map Prod.fst)
    ∧ ((runApp e sys req rid authR clientsR).handledBy = Handler.health →
        ¬ "success" ∈ (runApp e sys req rid authR clientsR).resp.body.map Prod.fst) := by
  cases authR <;> cases clientsR <;>
    simp only [runApp, dispatchRouter] <;>
    split_ifs <;>
    simp [notFoundBody, errorBody, healthBody, tooLargeBody, badJsonBody,
      corsRejectBody]

/-- Concrete witness for the amended claim C3: a request to `/api/unknown`
that reaches the 404 handler. -/
theorem responses_C3_amended_witness :
    (runApp { nodeEnvVar := some "development" }
        { now := "t0", uptime := 1, dbConnected := true }
        { method := "GET", path := "/api/unknown"
          origin := some "http://localhost:3000", bodySize := 0
          bodyMalformed := false }
        "req-3" .next .next).resp.requestIdHeader = some "req-3"
    ∧ ((runApp { nodeEnvVar := some "development" }
        { now := "t0", uptime := 1, dbConnected := true }
        { method := "GET", path := "/api/unknown"
          origin := some "http://localhost:3000", bodySize := 0
          bodyMalformed := false }
        "req-3" .next .next).handledBy = Handler.notFound →
        "success" ∈ (runApp { nodeEnvVar := some "development" }
          { now := "t0", uptime := 1, dbConnected := true }
          { method := "GET", path := "/api/unknown"
            origin := some "http://localhost:3000", bodySize := 0
            bodyMalformed := false }
          "req-3" .next .next).resp.body.map Prod.fst)
    ∧ ((runApp { nodeEnvVar := some "development" }
        { now := "t0", uptime := 1, dbConnected := true }
        { method := "GET", path := "/api/unknown"
          origin := some "http://localhost:3000", bodySize := 0
          bodyMalformed := false }
        "req-3" .next .next).handledBy = Handler.errorHandler →
        "success" ∈ (runApp { nodeEnvVar := some "development" }
          { now := "t0", uptime := 1, dbConnected := true }
          { method := "GET", path := "/api/unknown"
            origin := some "http://localhost:3000", bodySize := 0
            bodyMalformed := false }
          "req-3" .next .next).resp.body.map Prod.fst)
    ∧ ((runApp { nodeEnvVar := some "development" }
        { now := "t0", uptime := 1, dbConnected := true }
        { method := "GET", path := "/api/unknown"
          origin := some "http://localhost:3000", bodySize := 0
          bodyMalformed := false }
        "req-3" .next .next).handledBy = Handler.health →
        ¬ "success" ∈ (runApp { nodeEnvVar := some "development" }
          { now := "t0", uptime := 1, dbConnected := true }
          { method := "GET", path := "/api/unknown"
            origin := some "http://localhost:3000", bodySize := 0
            bodyMalformed := false }
          "req-3" .next .next).resp.body.map Prod.fst) :=
  responses_C3_amended { nodeEnvVar := some "development" }
    { now := "t0", uptime := 1, dbConnected := true }
    { method := "GET", path := "/api/unknown"
      origin := some "http://localhost:3000", bodySize := 0
      bodyMalformed := false }
    "req-3" .next .next

/-- Claim C4: when a request that passed the middleware reaches the
`/api/auth` router and the handler throws, the terminal error handler's
JSON body carries the request's correlation ID, and the exposed `error`
detail equals the original error message when the runtime mode is
`development` and the fixed string `"Internal server error"` when it is
`production`. -/
theorem errorHandler_C4 (e : Env) (sys : SysState) (req : Request)
    (rid emsg : String) (est : Option Nat) (clientsR : RouterOutcome)
    (hcors : corsOk e req = true) (hsize : req.bodySize ≤ bodyLimit)
    (hjson : req.bodyMalformed = false)
    (hmount : mountMatch "/api/auth" req.path = true) :
    ((runApp e sys req rid (.throwErr emsg est) clientsR).resp.body.lookup "requestId"
        = some (.str rid))
    ∧ (nodeEnv e = "development" →
        (runApp e sys req rid (.throwErr emsg est) clientsR).resp.body.lookup "error"
          = some (.str emsg))
    ∧ (nodeEnv e = "production" →
        (runApp e sys req rid (.throwErr emsg est) clientsR).resp.body.lookup "error"
          = some (.str "Internal server error")) := by
  have hlt : ¬ bodyLimit < req.bodySize := Nat.not_lt.mpr hsize
  have hh : isHealthReq req = false := by
    cases hhe : isHealthReq req
    · rfl
    · exfalso
      have hp : req.path = "/" := by
        simp only [isHealthReq, Bool.and_eq_true, beq_iff_eq] at hhe
        exact hhe.2
      rw [hp] at hmount
      exact absurd hmount (by decide)
  refine ⟨?_, ?_, ?_⟩
  · simp [runApp, dispatchRouter, hcors, hlt, hjson, hh, hmount, errorBody,
      List.lookup]
  · intro hdev
    simp [runApp, dispatchRouter, hcors, hlt, hjson, hh, hmount, errorBody,
      errorExposed, hdev, List.lookup]
  · intro hprod
    simp [runApp, dispatchRouter, hcors, hlt, hjson, hh, hmount, errorBody,
      errorExposed, hprod, List.lookup]

/-- Concrete witness for claim C4: a well-formed POST to `/api/auth/login`
whose handler throws `"boom"`, in development mode. -/
theorem errorHandler_C4_witness :
    ((runApp { nodeEnvVar := some "development" }
        { now := "t0", uptime := 1, dbConnected := true }
        { method := "POST", path := "/api/auth/login", origin := none
          bodySize := 10, bodyMalformed := false }
        "req-4" (.throwErr "boom" none) .next).resp.body.lookup "requestId"
        = some (.str "req-4"))
    ∧ (nodeEnv { nodeEnvVar := some "development" } = "development" →
        (runApp { nodeEnvVar := some "development" }
          { now := "t0", uptime := 1, dbConnected := true }
          { method := "POST", path := "/api/auth/login", origin := none
            bodySize := 10, bodyMalformed := false }
          "req-4" (.throwErr "boom" none) .next).resp.body.lookup "error"
          = some (.str "boom"))
    ∧ (nodeEnv { nodeEnvVar := some "development" } = "production" →
        (runApp { nodeEnvVar := some "development" }
          { now := "t0", uptime := 1, dbConnected := true }
          { method := "POST", path := "/api/auth/login", origin := none
            bodySize := 10, bodyMalformed := false }
          "req-4" (.throwErr "boom" none) .next).resp.body.lookup "error"
          = some (.str "Internal server error")) :=
  errorHandler_C4 { nodeEnvVar := some "development" }
    { now := "t0", uptime := 1, dbConnected := true }
    { method := "POST", path := "/api/auth/login", origin := none
      bodySize := 10, bodyMalformed := false }
    "req-4" "boom" none .next (by decide) (by decide) rfl (by decide)

/-- Claim C5: a request that passes the middleware and matches no
registered route — not the health route, not the `/api/auth` mount, not
the `/api/clients` mount — receives status 404 with the JSON body
`{success: false, message, requestId}` whose `requestId` is the
correlation ID generated for the request. -/
theorem notFound_C5 (e : Env) (sys : SysState) (req : Request) (rid : String)
    (authR clientsR : RouterOutcome)
    (hcors : corsOk e req = true) (hsize : req.bodySize ≤ bodyLimit)
    (hjson : req.bodyMalformed = false)
    (hhealth : isHealthReq req = false)
    (hauth : mountMatch "/api/auth" req.path = false)
    (hclients : mountMatch "/api/clients" req.path = false) :
    (runApp e sys req rid authR clientsR).resp.status = 404
    ∧ (runApp e sys req rid authR clientsR).resp.body
        = [("success", Jval.jbool false), ("message", Jval.str "Route not found"),
           ("requestId", Jval.str rid)] := by
  have hlt : ¬ bodyLimit < req.bodySize := Nat.not_lt.mpr hsize
  constructor <;>
    simp [runApp, hcors, hlt, hjson, hhealth, hauth, hclients, notFoundBody]

/-- Concrete witness for claim C5: the spec's own example, a request to
`/api/unknown`. -/
theorem notFound_C5_witness :
    (runApp { nodeEnvVar := some "development" }
        { now := "t0", uptime := 1, dbConnected := true }
        { method := "GET", path := "/api/unknown"
          origin := some "http://localhost:5173", bodySize := 0
          bodyMalformed := false }
        "req-5" .next .next).resp.status = 404
    ∧ (runApp { nodeEnvVar := some "development" }
        { now := "t0", uptime := 1, dbConnected := true }
        { method := "GET", path := "/api/unknown"
          origin := some "http://localhost:5173", bodySize := 0
          bodyMalformed := false }
        "req-5" .next .next).resp.body
        = [("success", Jval.jbool false), ("message", Jval.str "Route not found"),
           ("requestId", Jval.str "req-5")] :=
  notFound_C5 { nodeEnvVar := some "development" }
    { now := "t0", uptime := 1, dbConnected := true }
    { method := "GET", path := "/api/unknown"
      origin := some "http://localhost:5173", bodySize := 0
      bodyMalformed := false }
    "req-5" .next .next (by decide) (by decide) rfl (by decide) (by decide)
    (by decide)

/-- Claim C7: on every request the executed stages appear in
non-decreasing pipeline rank — request-ID assignment, then access logging,
then security logging, then CORS, then body parsing — and whenever a route
handler runs, the first six executed stages are exactly the six middleware
registrations in that order, so every middleware stage precedes every
route handler. -/
theorem pipeline_C7 (e : Env) (sys : SysState) (req : Request) (rid : String)
    (authR clientsR : RouterOutcome) :
    ((runApp e sys req rid authR clientsR).trace).Pairwise
        (fun a b => stageRank a ≤ stageRank b)
    ∧ (Stage.routeHandler ∈ (runApp e sys req rid authR clientsR).trace →
        ((runApp e sys req rid authR clientsR).trace).take 6
          = [Stage.addRequestId, Stage.morganMiddleware, Stage.requestLogger,
             Stage.securityLogger, Stage.corsStage, Stage.bodyParse]) := by
  cases authR <;> cases clientsR <;>
    simp only [runApp, dispatchRouter, preTrace] <;>
    split_ifs <;>
    refine ⟨?_, ?_⟩ <;> dsimp only <;> decide

/-- Concrete witness for claim C7: a plain health-probe request. -/
theorem pipeline_C7_witness :
    (((runApp { nodeEnvVar := some "development" }
        { now := "t0", uptime := 1, dbConnected := true }
        { method := "GET", path := "/", origin := none, bodySize := 0
          bodyMalformed := false }
        "req-7" .next .next).trace).Pairwise
        (fun a b => stageRank a ≤ stageRank b))
    ∧ (Stage.routeHandler ∈ (runApp { nodeEnvVar := some "development" }
        { now := "t0", uptime := 1, dbConnected := true }
        { method := "GET", path := "/", origin := none, bodySize := 0
          bodyMalformed := false }
        "req-7" .next .next).trace →
        ((runApp { nodeEnvVar := some "development" }
          { now := "t0", uptime := 1, dbConnected := true }
          { method := "GET", path := "/", origin := none, bodySize := 0
            bodyMalformed := false }
          "req-7" .next .next).trace).take 6
          = [Stage.addRequestId, Stage.morganMiddleware, Stage.requestLogger,
             Stage.securityLogger, Stage.corsStage, Stage.bodyParse]) :=
  pipeline_C7 { nodeEnvVar := some "development" }
    { now := "t0", uptime := 1, dbConnected := true }
    { method := "GET", path := "/", origin := none, bodySize := 0
      bodyMalformed := false }
    "req-7" .next .next

/-- Claim C8: every POST request that the CORS stage admits and whose body
exceeds the fixed 10MB ceiling is rejected by the body-parsing stage with
status 413, and no route handler executes. -/
theorem bodyCeiling_C8 (e : Env) (sys : SysState) (req : Request)
    (rid : String) (authR clientsR : RouterOutcome)
    (_hm : req.method = "POST") (hcors : corsOk e req = true)
    (hbig : bodyLimit < req.bodySize) :
    (runApp e sys req rid authR clientsR).resp.status = 413
    ∧ (runApp e sys req rid authR clientsR).handledBy = Handler.bodyTooLarge
    ∧ Stage.routeHandler ∉ (runApp e sys req rid authR clientsR).trace := by
  refine ⟨?_, ?_, ?_⟩ <;> simp [runApp, hcors, hbig, preTrace]

/-- Concrete witness for claim C8: the spec's example, an 11MB POST body
(11 * 1024 * 1024 bytes) sent from an allowed origin. -/
theorem bodyCeiling_C8_witness :
    (runApp { nodeEnvVar := some "development" }
        { now := "t0", uptime := 1, dbConnected := true }
        { method := "POST", path := "/api/auth/login"
          origin := some "http://localhost:3000", bodySize := 11534336
          bodyMalformed := false }
        "req-8" .next .next).resp.status = 413
    ∧ (runApp { nodeEnvVar := some "development" }
        { now := "t0", uptime := 1, dbConnected := true }
        { method := "POST", path := "/api/auth/login"
          origin := some "http://localhost:3000", bodySize := 11534336
          bodyMalformed := false }
        "req-8" .next .next).handledBy = Handler.bodyTooLarge
    ∧ Stage.routeHandler ∉ (runApp { nodeEnvVar := some "development" }
        { now := "t0", uptime := 1, dbConnected := true }
        { method := "POST", path := "/api/auth/login"
          origin := some "http://localhost:3000", bodySize := 11534336
          bodyMalformed := false }
        "req-8" .next .next).trace :=
  bodyCeiling_C8 { nodeEnvVar := some "development" }
    { now := "t0", uptime := 1, dbConnected := true }
    { method := "POST", path := "/api/auth/login"
      origin := some "http://localhost:3000", bodySize := 11534336
      bodyMalformed := false }
    "req-8" .next .next rfl (by decide) (by decide)
